import Mathlib

/-!
Verification development for the cloud-hug point-of-sale synchronization engine.

Shallow embedding of the sync core:
* `OfflineStorage` / `BackgroundSync` (offline storage module): the persisted
  sync queue and its drain loop `processSyncQueue`.
* `WebSocketSync` (src/lib/websocketSync.ts): the push-channel client with
  reconnect backoff.
* The `DataProvider` change-notification handlers
  (src/components/DataProvider.tsx).
* `useBackendSync.connectToBackend` (src/pages/Counter.tsx): the initial full
  refresh with the menu "seed" rule.

Machine integers of the source are modelled as `Nat` (no overflow is relevant:
retry counters, attempt counters and millisecond delays stay tiny). Opaque JSON
payloads are modelled as `Nat`. Fallible HTTP calls are modelled by an explicit
result type.
-/

namespace CloudHug

/-! ## Offline storage and the background sync queue -/

/-- The `type` discriminant of a sync-queue item: `'order' | 'waiterCall'`. -/
inductive SyncKind where
  | order
  | waiterCall
deriving DecidableEq

/-- A persisted sync-queue entry (`SyncQueueItem` in the source): id, type,
payload, enqueue timestamp and retry counter. The id string
`Date.now()-random` is abstracted as a `Nat` key; IndexedDB stores entries
keyed by it. -/
structure SyncQueueItem where
  id : Nat
  type : SyncKind
  data : Nat
  timestamp : Nat
  retries : Nat
deriving DecidableEq

/-- Outcome of one `fetch` submission of a queue item: a 2xx response
(`response.ok`), a non-2xx response, or a thrown network error. -/
inductive FetchResult where
  | ok
  | httpError
  | netError
deriving DecidableEq

/-- Observable events of a drain: a submission attempt for an item, a
successful sync (removal after a 2xx), and an eviction after too many
retries (the `Removed item after max retries` report). -/
inductive SyncEvent where
  | submitted (id : Nat)
  | synced (id : Nat)
  | evicted (id : Nat)
deriving DecidableEq

/-- `offlineStorage.removeFromSyncQueue(id)`: delete the entry with the given
key from the store. -/
def removeFromSyncQueue (i : Nat) (store : List SyncQueueItem) : List SyncQueueItem :=
  store.filter (fun it => it.id ≠ i)

/-- `offlineStorage.updateSyncQueueItem(id, { retries })`: overwrite the stored
entry's retry counter (no-op when the key is absent). -/
def updateRetries (i : Nat) (r : Nat) (store : List SyncQueueItem) : List SyncQueueItem :=
  store.map (fun it => if it.id = i then { it with retries := r } else it)

/-- One loop iteration of `BackgroundSync.processSyncQueue` for a snapshot item
`it`, given the store contents and the outcome of the `fetch`:
* any kind, 2xx: `removeFromSyncQueue(item.id)`;
* kind `order`, non-2xx: a `Failed to sync order` error is thrown, so the
  catch block runs: increment `retries`, and when `item.retries >= 5` also
  remove the item and report its eviction;
* kind `waiterCall`, non-2xx: the source does nothing (no throw, no update);
* network error (either kind): the catch block runs as above. -/
def syncAttempt (res : FetchResult) (it : SyncQueueItem) (store : List SyncQueueItem) :
    List SyncQueueItem × List SyncEvent :=
  match it.type, res with
  | _, FetchResult.ok =>
      (removeFromSyncQueue it.id store, [SyncEvent.submitted it.id, SyncEvent.synced it.id])
  | SyncKind.waiterCall, FetchResult.httpError =>
      (store, [SyncEvent.submitted it.id])
  | _, _ =>
      let store1 := updateRetries it.id (it.retries + 1) store
      if it.retries ≥ 5 then
        (removeFromSyncQueue it.id store1, [SyncEvent.submitted it.id, SyncEvent.evicted it.id])
      else
        (store1, [SyncEvent.submitted it.id])

/-- `offlineStorage.getSyncQueue()` uses IndexedDB `getAll`, which returns the
entries in primary-key order; modelled as an insertion sort by `id`. -/
def getSyncQueue (store : List SyncQueueItem) : List SyncQueueItem :=
  store.insertionSort (fun a b => a.id ≤ b.id)

/-- The `for (const item of queue)` replay loop: iterate the snapshot, threading
the store through each attempt (`res` gives the backend's outcome per item id)
and concatenating the observable events. -/
def drainLoop (res : Nat → FetchResult) :
    List SyncQueueItem → List SyncQueueItem → List SyncQueueItem × List SyncEvent
  | [], store => (store, [])
  | it :: rest, store =>
      let r1 := syncAttempt (res it.id) it store
      let r2 := drainLoop res rest r1.1
      (r2.1, r1.2 ++ r2.2)

/-- State of `BackgroundSync`: the persisted queue store plus the static
`isProcessing` flag. -/
structure SyncState where
  queue : List SyncQueueItem
  isProcessing : Bool
deriving DecidableEq

/-- `BackgroundSync.processSyncQueue()`: return at once when a drain is already
running or when `navigator.onLine` is false; otherwise read the queue snapshot,
replay it, and clear the flag in the `finally` block. -/
def processSyncQueue (online : Bool) (res : Nat → FetchResult) (s : SyncState) :
    SyncState × List SyncEvent :=
  if s.isProcessing then (s, [])
  else if !online then (s, [])
  else
    let r := drainLoop res (getSyncQueue s.queue) s.queue
    ({ queue := r.1, isProcessing := false }, r.2)

/-- Repeated drains (e.g. the 30s auto-sync timer firing `n` times), with the
backend answering every item by `res` on every drain. -/
def iterDrains (online : Bool) (res : Nat → FetchResult) :
    Nat → SyncState → SyncState × List SyncEvent
  | 0, s => (s, [])
  | n + 1, s =>
      let r1 := processSyncQueue online res s
      let r2 := iterDrains online res n r1.1
      (r2.1, r1.2 ++ r2.2)

/-- Ids of the submission attempts in an event list. -/
def submittedIds : List SyncEvent → List Nat
  | [] => []
  | SyncEvent.submitted i :: es => i :: submittedIds es
  | _ :: es => submittedIds es

/-- An interleaved execution of two `processSyncQueue` invocations: invocation A
has passed the guards, set `isProcessing`, taken its snapshot and replayed the
first `k` items; invocation B then runs against the mid-drain state (flag still
set); afterwards A replays the rest of its snapshot and clears the flag.
Returns the final state, B's events, and all events in order. -/
def runOverlapped (online : Bool) (res : Nat → FetchResult) (q : List SyncQueueItem) (k : Nat) :
    SyncState × List SyncEvent × List SyncEvent :=
  let snapshot := getSyncQueue q
  let rA1 := drainLoop res (snapshot.take k) q
  let rB := processSyncQueue online res { queue := rA1.1, isProcessing := true }
  let rA2 := drainLoop res (snapshot.drop k) rB.1.queue
  (⟨rA2.1, false⟩, rB.2, rA1.2 ++ rB.2 ++ rA2.2)

/-! ## The WebSocket push-channel client (src/lib/websocketSync.ts) -/

/-- Ready state of the underlying `WebSocket` object. -/
inductive ReadyState where
  | connecting
  | opened
deriving DecidableEq

/-- State of the `WebSocketSync` singleton: the current socket (if any), the
reconnect-attempt counter, the `isConnecting` guard, and the number of
`setTimeout` reconnect callbacks currently scheduled. -/
structure WSState where
  ws : Option ReadyState
  reconnectAttempts : Nat
  isConnecting : Bool
  pendingTimers : Nat
deriving DecidableEq

/-- `maxReconnectAttempts = 10`. -/
def maxReconnectAttempts : Nat := 10

/-- `reconnectDelay = 2000` (milliseconds). -/
def reconnectDelay : Nat := 2000

/-- The freshly constructed singleton: no socket, zero attempts. -/
def initialWSState : WSState :=
  { ws := none, reconnectAttempts := 0, isConnecting := false, pendingTimers := 0 }

/-- `WebSocketSync.connect()`: skip when the socket is already OPEN or a
connect is in flight; otherwise create a new socket (CONNECTING) and set the
`isConnecting` guard. -/
def connect (s : WSState) : WSState :=
  if s.ws = some ReadyState.opened ∨ s.isConnecting then s
  else { s with ws := some ReadyState.connecting, isConnecting := true }

/-- `WebSocketSync.attemptReconnect()`: bail out once `reconnectAttempts`
reaches `maxReconnectAttempts`; otherwise increment the counter and schedule a
`connect` timer after `reconnectDelay * min(reconnectAttempts, 5)` ms. Returns
the scheduled delay, if any. -/
def attemptReconnect (s : WSState) : WSState × Option Nat :=
  if s.reconnectAttempts ≥ maxReconnectAttempts then (s, none)
  else
    ({ s with
        reconnectAttempts := s.reconnectAttempts + 1,
        pendingTimers := s.pendingTimers + 1 },
     some (reconnectDelay * min (s.reconnectAttempts + 1) 5))

/-- External stimuli driving the client: the public calls, the socket
callbacks, and the firing of a scheduled reconnect timer. -/
inductive WSEvent where
  | callConnect
  | callDisconnect
  | sockOpen
  | sockClose
  | sockError
  | timerFire
deriving DecidableEq

/-- One step of the client. Each emitted pair is an `emit(eventType, data)`
call, recorded as `(eventType, data.status)`:
* `callConnect`: run `connect()` (emits nothing itself);
* `callDisconnect`: `disconnect()` closes and nulls the socket and sets
  `reconnectAttempts = maxReconnectAttempts` to prevent reconnection;
* `sockOpen` (only for a CONNECTING socket): reset the attempt counter, clear
  the guard, emit `connection { status: connected }`;
* `sockClose` (only when a socket exists): clear guard and socket, emit
  `connection { status: disconnected }`, then `attemptReconnect()`;
* `sockError` (only when a socket exists): clear the guard and emit
  `connection { status: error }`;
* `timerFire` (only when a timer is pending): the scheduled callback runs
  `this.connect()` unconditionally. -/
def wsStep (s : WSState) : WSEvent → WSState × List (String × String)
  | WSEvent.callConnect => (connect s, [])
  | WSEvent.callDisconnect =>
      ({ s with ws := none, reconnectAttempts := maxReconnectAttempts }, [])
  | WSEvent.sockOpen =>
      if s.ws = some ReadyState.connecting then
        ({ s with ws := some ReadyState.opened, reconnectAttempts := 0, isConnecting := false },
         [("connection", "connected")])
      else (s, [])
  | WSEvent.sockClose =>
      if s.ws = none then (s, [])
      else
        ((attemptReconnect { s with ws := none, isConnecting := false }).1,
         [("connection", "disconnected")])
  | WSEvent.sockError =>
      if s.ws = none then (s, [])
      else ({ s with isConnecting := false }, [("connection", "error")])
  | WSEvent.timerFire =>
      if s.pendingTimers = 0 then (s, [])
      else (connect { s with pendingTimers := s.pendingTimers - 1 }, [])

/-- Run the client over a sequence of stimuli, collecting every emitted
event. -/
def wsRun (s : WSState) : List WSEvent → WSState × List (String × String)
  | [] => (s, [])
  | e :: es =>
      let r1 := wsStep s e
      let r2 := wsRun r1.1 es
      (r2.1, r1.2 ++ r2.2)

/-! ## DataProvider change-notification handlers
(src/components/DataProvider.tsx)

Each handler of a change notification awaits a fresh `getAll()` fetch and then
replaces the materialized collection with the fetched value
(`store.setMenuItems(menuItems)` and its analogues). There is no sequence
guard: when several fetches of the same type are in flight, each completion
overwrites the store, so completions are applied in completion order. -/

/-- The slice of the zustand store the cited handlers write. -/
structure StoreState where
  menuItems : List Nat
  bills : List Nat
  transactions : List Nat
deriving DecidableEq

/-- `store.setMenuItems(menuItems)`: in-place replacement of the materialized
menu collection. -/
def setMenuItems (fetched : List Nat) (s : StoreState) : StoreState :=
  { s with menuItems := fetched }

/-- Processing `MENU_UPDATE` notifications: fetch `n` (the fetch issued while
processing the `n`-th notification) returns `fetchResult n`; completions land
in the order given by `completionOrder`, and each completion runs the tail of
the handler, `store.setMenuItems(menuItems)`. -/
def runMenuRefetches (fetchResult : Nat → List Nat) (completionOrder : List Nat)
    (s : StoreState) : StoreState :=
  completionOrder.foldl (fun st n => setMenuItems (fetchResult n) st) s

/-! ## Initial full refresh with the menu seed rule
(useBackendSync.connectToBackend, src/pages/Counter.tsx) -/

/-- The collections fetched by the initial `Promise.all` (and the matching
slice of the local store). Records are opaque `Nat` payloads; `settings` is a
nullable singleton. -/
structure Collections where
  menuItems : List Nat
  orders : List Nat
  bills : List Nat
  customers : List Nat
  staff : List Nat
  settings : Option Nat
  expenses : List Nat
  waiterCalls : List Nat
  transactions : List Nat
deriving DecidableEq

/-- The seed push loop `for (const item of localMenuItems) { try { await
menuApi.create(item) } catch { log } }`: every item is attempted in order; a
failing `create` (per `pushFails`) is logged and the loop continues. Returns
(attempts in order, failures logged). -/
def pushMenuItems (pushFails : Nat → Bool) : List Nat → List Nat × List Nat
  | [] => ([], [])
  | item :: rest =>
      let r := pushMenuItems pushFails rest
      (item :: r.1, if pushFails item then item :: r.2 else r.2)

/-- `connectToBackend` after a successful health probe and fetch round:
* seed branch (`menuItems.length === 0 && localMenuItems.length > 0`): push
  every local menu item via `menuApi.create` inside a per-item try/catch (a
  failing push is logged and the loop continues), keep the local menu, and
  `setState` the rest from the backend;
* otherwise `setState` everything from the backend.
In BOTH branches the source writes `staff: staff.length > 0 ? staff :
store.staff` and `settings: settings || store.settings`.
Returns the new store, the list of push attempts (in order), and the list of
pushes whose `create` failed (each logged independently). -/
def connectToBackend (pushFails : Nat → Bool) (backend localStore : Collections) :
    Collections × List Nat × List Nat :=
  if backend.menuItems = [] ∧ localStore.menuItems ≠ [] then
    let pushed := pushMenuItems pushFails localStore.menuItems
    ({ menuItems := localStore.menuItems,
       orders := backend.orders,
       bills := backend.bills,
       customers := backend.customers,
       staff := if backend.staff = [] then localStore.staff else backend.staff,
       settings := match backend.settings with
         | some v => some v
         | none => localStore.settings,
       expenses := backend.expenses,
       waiterCalls := backend.waiterCalls,
       transactions := backend.transactions },
     pushed.1,
     pushed.2)
  else
    ({ menuItems := backend.menuItems,
       orders := backend.orders,
       bills := backend.bills,
       customers := backend.customers,
       staff := if backend.staff = [] then localStore.staff else backend.staff,
       settings := match backend.settings with
         | some v => some v
         | none => localStore.settings,
       expenses := backend.expenses,
       waiterCalls := backend.waiterCalls,
       transactions := backend.transactions },
     [], [])

/-! ## Concrete fixtures used by counterexamples and witnesses -/

/-- Order comparison of queue entries by IndexedDB key. -/
instance : DecidableRel (fun a b : SyncQueueItem => a.id ≤ b.id) :=
  fun a b => Nat.decLe a.id b.id

/-- Strict key order of queue entries (fresh, time-ordered ids). -/
instance : DecidableRel (fun a b : SyncQueueItem => a.id < b.id) :=
  fun a b => Nat.decLt a.id b.id

/-- A queued waiter call, never yet retried. -/
def wcItem : SyncQueueItem :=
  { id := 1, type := SyncKind.waiterCall, data := 0, timestamp := 1, retries := 0 }

/-- A queued order, never yet retried. -/
def ordItem : SyncQueueItem :=
  { id := 2, type := SyncKind.order, data := 0, timestamp := 2, retries := 0 }

/-- A backend that answers every submission with a non-2xx status. -/
def respBad : Nat → FetchResult := fun _ => FetchResult.httpError

/-- A backend that accepts every submission with a 2xx status. -/
def respOk : Nat → FetchResult := fun _ => FetchResult.ok

/-- The events of an all-accepted drain of a queue: one submission and one
successful sync per item, in queue order. -/
def okEvents : List SyncQueueItem → List SyncEvent
  | [] => []
  | it :: rest => SyncEvent.submitted it.id :: SyncEvent.synced it.id :: okEvents rest

/-- A two-element queue in enqueue order (ids 1 then 2). -/
def q12 : List SyncQueueItem := [wcItem, ordItem]

/-- Fetch results for the two in-flight menu refetches of the C1 scenario:
fetch 1 (issued first) sees `[1]`, fetch 2 (issued later) sees `[2]`. -/
def menuFetch : Nat → List Nat := fun n => if n = 2 then [2] else [1]

/-- An empty materialized store. -/
def emptyStore : StoreState := { menuItems := [], bills := [], transactions := [] }

/-- A backend whose every collection is empty. -/
def backendEmptyC : Collections :=
  { menuItems := [], orders := [], bills := [], customers := [], staff := [],
    settings := none, expenses := [], waiterCalls := [], transactions := [] }

/-- A local store holding one menu item, one staff member and settings. -/
def localSeedC : Collections :=
  { menuItems := [1], orders := [], bills := [], customers := [], staff := [5],
    settings := some 7, expenses := [], waiterCalls := [], transactions := [] }

/-- All seed pushes succeed. -/
def noPushFail : Nat → Bool := fun _ => false

/-- A client state after two failed reconnect attempts. -/
def wsAttempt2 : WSState :=
  { ws := none, reconnectAttempts := 2, isConnecting := false, pendingTimers := 0 }

/-- A client state that has exhausted its reconnect attempts. -/
def wsAttempt10 : WSState :=
  { ws := none, reconnectAttempts := 10, isConnecting := false, pendingTimers := 0 }

/-- A client mid-connect on its tenth attempt. -/
def wsConnecting9 : WSState :=
  { ws := some ReadyState.connecting, reconnectAttempts := 9, isConnecting := true,
    pendingTimers := 0 }

/-! ## Theorems -/

/-- C10: when the platform reports the network as offline, a drain invocation
returns immediately: no submission is attempted and the persisted sync queue,
including every item's retry count, is unchanged. -/
theorem offline_drain_is_noop (res : Nat → FetchResult) (s : SyncState) :
    processSyncQueue false res s = (s, []) := by
  cases h : s.isProcessing <;> simp [processSyncQueue, h]

/-- C4 failing-input evaluation: a queued `waiterCall` whose POST returns a
non-2xx status is left in the queue with its retry count unchanged — the
source's `waiterCall` branch neither throws nor updates on `!response.ok` —
while a queued `order` with the same response has its retry count incremented.
The claim requires both kinds to treat any non-2xx as a replay failure that
increments the retry count. -/
theorem waiterCall_httpError_not_counted :
    syncAttempt FetchResult.httpError wcItem [wcItem]
      = ([wcItem], [SyncEvent.submitted 1])
    ∧ syncAttempt FetchResult.httpError ordItem [ordItem]
      = ([{ ordItem with retries := 1 }], [SyncEvent.submitted 2]) := by
  decide

/-- C3 failing-input evaluation: a queued `waiterCall` whose submissions all
return a non-2xx status is submitted on all of 7 consecutive drains — a 7th
time after 6 consecutive failures — and is never evicted or reported, because
the source increments `retries` only in the catch block, which the
`waiterCall` non-2xx branch never reaches. An `order` failing the same way is
evicted (with the max-retries report) right after its 6th submission and is
never submitted a 7th time, as the claim demands. -/
theorem waiterCall_never_evicted :
    iterDrains true respBad 7 { queue := [wcItem], isProcessing := false }
      = ({ queue := [wcItem], isProcessing := false },
         List.replicate 7 (SyncEvent.submitted 1))
    ∧ iterDrains true respBad 7 { queue := [ordItem], isProcessing := false }
      = ({ queue := [], isProcessing := false },
         [SyncEvent.submitted 2, SyncEvent.submitted 2, SyncEvent.submitted 2,
          SyncEvent.submitted 2, SyncEvent.submitted 2, SyncEvent.submitted 2,
          SyncEvent.evicted 2]) := by
  decide

/-- A `processSyncQueue` invocation made while another drain holds the
`isProcessing` flag is a no-op: it neither reads nor mutates the queue and
submits nothing. -/
theorem processSyncQueue_busy (online : Bool) (res : Nat → FetchResult)
    (s : SyncState) (h : s.isProcessing = true) :
    processSyncQueue online res s = (s, []) := by
  simp [processSyncQueue, h]

/-- Submission-attempt ids distribute over event concatenation. -/
theorem submittedIds_append (a b : List SyncEvent) :
    submittedIds (a ++ b) = submittedIds a ++ submittedIds b := by
  induction a with
  | nil => rfl
  | cons e es ih => cases e <;> simp [submittedIds, ih]

/-- Every branch of one replay attempt submits its item exactly once. -/
theorem submittedIds_syncAttempt (res : FetchResult) (it : SyncQueueItem)
    (store : List SyncQueueItem) :
    submittedIds (syncAttempt res it store).2 = [it.id] := by
  rcases it with ⟨i, ty, d, ts, r⟩
  cases ty <;> cases res <;>
    simp only [syncAttempt, submittedIds] <;>
    split <;> simp [submittedIds]

/-- A drain submits each snapshot item exactly once, in snapshot order. -/
theorem submittedIds_drainLoop (res : Nat → FetchResult)
    (l store : List SyncQueueItem) :
    submittedIds (drainLoop res l store).2 = l.map (fun it => it.id) := by
  induction l generalizing store with
  | nil => rfl
  | cons it rest ih =>
      simp [drainLoop, submittedIds_append, submittedIds_syncAttempt, ih]

/-- C7: at most one drain runs at a time. A `processSyncQueue` invocation that
finds `isProcessing` set returns immediately with the state untouched and no
submissions; consequently, in an execution where a second invocation lands at
any point `k` inside a running drain, the second contributes no events and the
combined execution submits no queued mutation twice (given distinct queue
ids). -/
theorem drain_guard_and_no_duplicates :
    (∀ (online : Bool) (res : Nat → FetchResult) (s : SyncState),
        s.isProcessing = true → processSyncQueue online res s = (s, []))
    ∧ ∀ (online : Bool) (res : Nat → FetchResult) (q : List SyncQueueItem) (k : Nat),
        (q.map (fun it => it.id)).Nodup →
          (runOverlapped online res q k).2.1 = []
          ∧ (submittedIds (runOverlapped online res q k).2.2).Nodup := by
  constructor
  · intro online res s h
    exact processSyncQueue_busy online res s h
  · intro online res q k hq
    have hb := processSyncQueue_busy online res
      ⟨(drainLoop res ((getSyncQueue q).take k) q).1, true⟩ rfl
    constructor
    · simp only [runOverlapped]
      rw [hb]
    · simp only [runOverlapped]
      rw [hb]
      simp only [submittedIds_append, submittedIds_drainLoop, List.append_nil,
        List.nil_append]
      rw [← List.map_append, List.take_append_drop]
      have hperm : List.Perm ((getSyncQueue q).map (fun it => it.id))
          (q.map (fun it => it.id)) :=
        (List.perm_insertionSort _ q).map _
      exact hperm.nodup_iff.mpr hq

/-- C7 witness: on the concrete queue `q12` (distinct ids), an invocation
landing after the first item of a running drain contributes nothing and no id
is submitted twice. -/
theorem drain_guard_and_no_duplicates_witness :
    (q12.map (fun it => it.id)).Nodup
    ∧ ((runOverlapped true respBad q12 1).2.1 = []
        ∧ (submittedIds (runOverlapped true respBad q12 1).2.2).Nodup) :=
  ⟨by decide, drain_guard_and_no_duplicates.2 true respBad q12 1 (by decide)⟩

/-- An all-accepting drain loop removes every snapshot item from the store and
reports one submission and one sync per item, in snapshot order. -/
theorem drainLoop_ok (l store : List SyncQueueItem) :
    drainLoop respOk l store
      = (l.foldl (fun st it => removeFromSyncQueue it.id st) store, okEvents l) := by
  induction l generalizing store with
  | nil => rfl
  | cons it rest ih => simp [drainLoop, syncAttempt, respOk, okEvents, ih]

/-- Removing the id of every item of `l` from a store whose ids all occur in
`l` empties the store. -/
theorem foldl_remove_eq_nil (l : List SyncQueueItem) :
    ∀ store : List SyncQueueItem,
      (∀ x ∈ store, x.id ∈ l.map (fun it => it.id)) →
      l.foldl (fun st it => removeFromSyncQueue it.id st) store = [] := by
  induction l with
  | nil =>
      intro store h
      simp only [List.map_nil, List.not_mem_nil] at h
      simp [List.eq_nil_iff_forall_not_mem.mpr h]
  | cons it rest ih =>
      intro store h
      simp only [List.foldl_cons]
      apply ih
      intro x hx
      rcases List.mem_filter.mp hx with ⟨hxs, hne⟩
      rcases List.mem_cons.mp ((List.map_cons _ _ _) ▸ h x hxs) with heq | hmem
      · exact absurd heq (by simpa using hne)
      · exact hmem

/-- C8: the drain replays the queue oldest first, in enqueue order — for a
queue whose ids are strictly increasing (fresh time-ordered keys, the
invariant `addToSyncQueue` maintains), the IndexedDB `getAll` snapshot equals
the queue in enqueue order — and when the backend accepts every submission,
each queued mutation is submitted and synced exactly once, in that order,
after which the queue is empty. -/
theorem drain_in_enqueue_order (q : List SyncQueueItem)
    (hq : q.Sorted (fun a b => a.id < b.id)) :
    getSyncQueue q = q
    ∧ processSyncQueue true respOk { queue := q, isProcessing := false }
        = ({ queue := [], isProcessing := false }, okEvents q) := by
  have hsorted : q.Sorted (fun a b : SyncQueueItem => a.id ≤ b.id) :=
    hq.imp (fun h => Nat.le_of_lt h)
  have hget : getSyncQueue q = q := hsorted.insertionSort_eq
  refine ⟨hget, ?_⟩
  simp only [processSyncQueue, Bool.not_true, if_false, Bool.false_eq_true,
    reduceIte, hget]
  rw [drainLoop_ok]
  rw [foldl_remove_eq_nil q q (fun x hx => List.mem_map_of_mem _ hx)]

/-- C8 witness: the concrete queue `q12` (ids 1 then 2, strictly increasing)
drains to the empty queue with exactly one submission and one sync per item,
in enqueue order. -/
theorem drain_in_enqueue_order_witness :
    q12.Sorted (fun a b => a.id < b.id)
    ∧ (getSyncQueue q12 = q12
        ∧ processSyncQueue true respOk { queue := q12, isProcessing := false }
            = ({ queue := [], isProcessing := false }, okEvents q12)) :=
  ⟨by decide, drain_in_enqueue_order q12 (by decide)⟩

/-- C5: after an unexpected closure, reconnect attempt `n` (the counter value
after the increment) is scheduled after `reconnectDelay * min n 5` ms — a
delay sequence that is non-decreasing in `n` and capped at `reconnectDelay *
5` — `attemptReconnect` schedules nothing once the counter has reached the
maximum of 10 (so no automatic reconnect follows the 10th failure until
`connect()` is called manually, which `connect` never blocks on the counter),
and a successful open resets the counter to zero. -/
theorem reconnect_backoff :
    (∀ s : WSState, s.reconnectAttempts < maxReconnectAttempts →
        attemptReconnect s
          = ({ s with
                reconnectAttempts := s.reconnectAttempts + 1,
                pendingTimers := s.pendingTimers + 1 },
             some (reconnectDelay * min (s.reconnectAttempts + 1) 5)))
    ∧ (∀ s : WSState, maxReconnectAttempts ≤ s.reconnectAttempts →
        attemptReconnect s = (s, none))
    ∧ (∀ n m : Nat, n ≤ m →
        reconnectDelay * min n 5 ≤ reconnectDelay * min m 5)
    ∧ (∀ n : Nat, reconnectDelay * min n 5 ≤ reconnectDelay * 5)
    ∧ (∀ s : WSState, s.ws = some ReadyState.connecting →
        (wsStep s WSEvent.sockOpen).1.reconnectAttempts = 0) := by
  refine ⟨?_, ?_, ?_, ?_, ?_⟩
  · intro s h
    simp [attemptReconnect, Nat.not_le.mpr h]
  · intro s h
    simp [attemptReconnect, h]
  · intro n m h
    exact Nat.mul_le_mul_left reconnectDelay (min_le_min h le_rfl)
  · intro n
    exact Nat.mul_le_mul_left reconnectDelay (min_le_right n 5)
  · intro s h
    simp [wsStep, h]

/-- C5 witness: with two failed attempts recorded, the third attempt is
scheduled after `2000 * min 3 5` ms; with ten recorded, nothing is scheduled;
and a successful open on the tenth in-flight connect resets the counter. -/
theorem reconnect_backoff_witness :
    wsAttempt2.reconnectAttempts < maxReconnectAttempts
    ∧ attemptReconnect wsAttempt2
        = ({ wsAttempt2 with
              reconnectAttempts := wsAttempt2.reconnectAttempts + 1,
              pendingTimers := wsAttempt2.pendingTimers + 1 },
           some (reconnectDelay * min (wsAttempt2.reconnectAttempts + 1) 5))
    ∧ attemptReconnect wsAttempt10 = (wsAttempt10, none)
    ∧ (wsStep wsConnecting9 WSEvent.sockOpen).1.reconnectAttempts = 0 :=
  ⟨by decide,
   reconnect_backoff.1 wsAttempt2 (by decide),
   reconnect_backoff.2.1 wsAttempt10 (by decide),
   reconnect_backoff.2.2.2.2 wsConnecting9 (by decide)⟩

/-- C6 failing-input evaluation: after an unexpected closure schedules a retry
timer, `disconnect()` maxes out `reconnectAttempts` (the intended cancellation
flag) — yet the already-scheduled timer callback runs `this.connect()`
unconditionally, so when it fires it creates a fresh socket, and the
subsequent open completes an automatic reconnection (emitting
`connection: connected`) without any manual `connect()` call. -/
theorem pending_timer_reconnects_after_disconnect :
    (wsRun initialWSState
        [WSEvent.callConnect, WSEvent.sockClose, WSEvent.callDisconnect]).1
      = { ws := none, reconnectAttempts := 10, isConnecting := false,
          pendingTimers := 1 }
    ∧ (wsRun initialWSState
        [WSEvent.callConnect, WSEvent.sockClose, WSEvent.callDisconnect,
         WSEvent.timerFire]).1.ws = some ReadyState.connecting
    ∧ (wsRun initialWSState
        [WSEvent.callConnect, WSEvent.sockClose, WSEvent.callDisconnect,
         WSEvent.timerFire, WSEvent.sockOpen]).1.ws = some ReadyState.opened
    ∧ ("connection", "connected") ∈ (wsRun initialWSState
        [WSEvent.callConnect, WSEvent.sockClose, WSEvent.callDisconnect,
         WSEvent.timerFire, WSEvent.sockOpen]).2 := by
  refine ⟨?_, ?_, ?_, ?_⟩ <;>
    simp [wsRun, wsStep, connect, attemptReconnect, initialWSState,
      maxReconnectAttempts, reconnectDelay]

/-- Every event one client step emits is a `connection` event whose status is
`connected`, `disconnected` or `error`. -/
theorem wsStep_emits (s : WSState) (e : WSEvent) (p : String × String)
    (hp : p ∈ (wsStep s e).2) :
    p.1 = "connection"
    ∧ (p.2 = "connected" ∨ p.2 = "disconnected" ∨ p.2 = "error") := by
  cases e <;> simp only [wsStep] at hp <;>
    first
    | simp at hp
    | (split at hp <;> simp at hp <;> simp [hp])

/-- C9 counterexample: the `onerror` handler emits a `connection` event whose
status is `error`, which is outside the claimed three-value set
`disconnected | connecting | connected`. -/
theorem connection_error_status_emitted :
    ("connection", "error")
        ∈ (wsRun initialWSState [WSEvent.callConnect, WSEvent.sockError]).2
    ∧ ¬("error" = "disconnected" ∨ "error" = "connecting"
        ∨ "error" = "connected") := by
  refine ⟨?_, by decide⟩
  simp [wsRun, wsStep, connect, initialWSState]

/-- C9 (amended): in every execution, every event the push-channel client
emits is a `connection` event whose status is drawn from the three-value set
`connected | disconnected | error` (the code never emits `connecting` or any
other value). -/
theorem connection_status_in_emitted_set (s : WSState) (evts : List WSEvent)
    (p : String × String) (hp : p ∈ (wsRun s evts).2) :
    p.1 = "connection"
    ∧ (p.2 = "connected" ∨ p.2 = "disconnected" ∨ p.2 = "error") := by
  induction evts generalizing s with
  | nil => simp [wsRun] at hp
  | cons e es ih =>
      simp only [wsRun, List.mem_append] at hp
      rcases hp with hp | hp
      · exact wsStep_emits s e p hp
      · exact ih _ hp

/-- C9 witness: the `connected` event of a successful first connect carries a
status in the amended set. -/
theorem connection_status_in_emitted_set_witness :
    ("connection", "connected")
        ∈ (wsRun initialWSState [WSEvent.callConnect, WSEvent.sockOpen]).2
    ∧ (("connection", "connected") : String × String).1 = "connection"
    ∧ ((("connection", "connected") : String × String).2 = "connected"
        ∨ (("connection", "connected") : String × String).2 = "disconnected"
        ∨ (("connection", "connected") : String × String).2 = "error") := by
  have hmem : ("connection", "connected")
      ∈ (wsRun initialWSState [WSEvent.callConnect, WSEvent.sockOpen]).2 := by
    simp [wsRun, wsStep, connect, initialWSState]
  have h := connection_status_in_emitted_set initialWSState
    [WSEvent.callConnect, WSEvent.sockOpen] ("connection", "connected") hmem
  exact ⟨hmem, h⟩

/-- C1 counterexample: two menu refetches are issued in order (fetch 1 for the
first processed notification, fetch 2 for the second); when the stale fetch 1
completes after fetch 2, its handler tail `store.setMenuItems(menuItems)` runs
last and the final materialized collection is fetch 1's result, not the
later-issued fetch 2's — the handlers carry no sequence guard, so nothing
discards a stale in-flight fetch. -/
theorem stale_fetch_overwrites :
    (runMenuRefetches menuFetch [2, 1] emptyStore).menuItems = menuFetch 1
    ∧ menuFetch 1 ≠ menuFetch 2 := by
  decide

/-- C1 (amended): for every notification type, when several refetches of that
type's collection are in flight, the final materialized collection equals the
result of the fetch that completes last — last-completion-wins, with no
discarding of stale in-flight fetches (shown on the `MENU_UPDATE` handler,
whose shape every `DataProvider` handler shares). -/
theorem last_completed_fetch_wins (fetchResult : Nat → List Nat)
    (completionOrder : List Nat) (s : StoreState) (n : Nat)
    (h : completionOrder.getLast? = some n) :
    (runMenuRefetches fetchResult completionOrder s).menuItems = fetchResult n := by
  induction completionOrder using List.reverseRecOn with
  | nil => simp at h
  | append_singleton l a ih =>
      rw [List.getLast?_concat] at h
      rcases Option.some.inj h with rfl
      simp [runMenuRefetches, List.foldl_append, setMenuItems]

/-- C1 witness: in the concrete two-fetch race the last completion is fetch 1
and the store ends at fetch 1's result. -/
theorem last_completed_fetch_wins_witness :
    ([2, 1] : List Nat).getLast? = some 1
    ∧ (runMenuRefetches menuFetch [2, 1] emptyStore).menuItems = menuFetch 1 :=
  ⟨rfl, last_completed_fetch_wins menuFetch [2, 1] emptyStore 1 rfl⟩

/-- The seed push loop attempts every local item in order, whatever the
per-item failures, and logs exactly the failing ones. -/
theorem pushMenuItems_attempts_all (pushFails : Nat → Bool) (l : List Nat) :
    (pushMenuItems pushFails l).1 = l
    ∧ (pushMenuItems pushFails l).2 = l.filter pushFails := by
  induction l with
  | nil => exact ⟨rfl, rfl⟩
  | cons item rest ih =>
      constructor
      · simp [pushMenuItems, ih.1]
      · simp [pushMenuItems, ih.2, List.filter_cons]

/-- C2 counterexample: with an empty backend staff collection and a non-empty
local one, the initial refresh keeps the local staff (`staff.length > 0 ?
staff : store.staff`) instead of adopting the backend's empty value, refuting
the claim that every non-menu collection always adopts the backend's returned
value even when empty (the same holds for `settings || store.settings`). -/
theorem staff_not_adopted_when_backend_empty :
    backendEmptyC.staff = []
    ∧ (connectToBackend noPushFail backendEmptyC localSeedC).1.staff = [5]
    ∧ (connectToBackend noPushFail backendEmptyC localSeedC).1.settings = some 7
    ∧ backendEmptyC.settings = none
    ∧ ([5] : List Nat) ≠ backendEmptyC.staff := by
  refine ⟨rfl, ?_, ?_, rfl, by decide⟩ <;> decide

/-- C2 (amended): during the initial full refresh, if the backend returns an
empty menu collection and the local store holds at least one menu item, every
local menu item is pushed to the backend one-by-one — each push failure
logged independently without aborting the loop — and the local menu is kept;
orders, bills, customers, expenses, waiter calls and transactions adopt the
backend's returned value even when empty, while staff adopts the backend's
value only when it is non-empty (otherwise the local staff is kept) and
settings adopts the backend's value only when one is returned (otherwise the
local settings are kept). -/
theorem seed_rule_and_adoption (pushFails : Nat → Bool)
    (backend localStore : Collections)
    (hb : backend.menuItems = []) (hl : localStore.menuItems ≠ []) :
    (connectToBackend pushFails backend localStore).2.1 = localStore.menuItems
    ∧ (connectToBackend pushFails backend localStore).2.2
        = localStore.menuItems.filter pushFails
    ∧ (connectToBackend pushFails backend localStore).1.menuItems
        = localStore.menuItems
    ∧ (connectToBackend pushFails backend localStore).1.orders = backend.orders
    ∧ (connectToBackend pushFails backend localStore).1.bills = backend.bills
    ∧ (connectToBackend pushFails backend localStore).1.customers
        = backend.customers
    ∧ (connectToBackend pushFails backend localStore).1.expenses
        = backend.expenses
    ∧ (connectToBackend pushFails backend localStore).1.waiterCalls
        = backend.waiterCalls
    ∧ (connectToBackend pushFails backend localStore).1.transactions
        = backend.transactions
    ∧ (connectToBackend pushFails backend localStore).1.staff
        = (if backend.staff = [] then localStore.staff else backend.staff)
    ∧ (connectToBackend pushFails backend localStore).1.settings
        = (match backend.settings with
            | some v => some v
            | none => localStore.settings) := by
  have hcond : (backend.menuItems = [] ∧ localStore.menuItems ≠ []) := ⟨hb, hl⟩
  simp only [connectToBackend, if_pos hcond]
  refine ⟨?_, ?_, ?_, ?_, ?_, ?_, ?_, ?_, ?_, ?_, ?_⟩ <;>
    first
    | exact (pushMenuItems_attempts_all pushFails localStore.menuItems).1
    | exact (pushMenuItems_attempts_all pushFails localStore.menuItems).2
    | trivial

/-- C2 witness: the concrete empty backend and the one-item local store with
all pushes succeeding. -/
theorem seed_rule_and_adoption_witness :
    backendEmptyC.menuItems = []
    ∧ localSeedC.menuItems ≠ []
    ∧ (connectToBackend noPushFail backendEmptyC localSeedC).2.1
        = localSeedC.menuItems
    ∧ (connectToBackend noPushFail backendEmptyC localSeedC).1.menuItems
        = localSeedC.menuItems
    ∧ (connectToBackend noPushFail backendEmptyC localSeedC).1.orders
        = backendEmptyC.orders :=
  ⟨rfl, by decide,
   (seed_rule_and_adoption noPushFail backendEmptyC localSeedC rfl
      (by decide)).1,
   (seed_rule_and_adoption noPushFail backendEmptyC localSeedC rfl
      (by decide)).2.2.1,
   (seed_rule_and_adoption noPushFail backendEmptyC localSeedC rfl
      (by decide)).2.2.2.1⟩

end CloudHug
